import Mathlib

/-!
Shallow embedding of the `dctl` process supervisor (src/src/main.rs) in Lean 4,
with theorems settling the frozen claims about its specification.

Modelling conventions:
- `ServiceStatus` mirrors the Rust struct of the same name: `flag : AtomicBool`
  becomes `flag : Bool` (true = active / keep restarting; the spec's
  `stopRequested` corresponds to `flag = false`), `pid : AtomicU32` becomes
  `pid : Nat`, and `thread : Mutex<Option<JoinHandle<()>>>` becomes
  `threadActive : Bool` (`true` = the slot holds `Some` join handle).
- OS side effects are made explicit: every operation that may call
  `libc::kill_` returns the list of `KillCall`s it performs, and process
  spawns by the guardian loop are recorded as the list of pids stored.
- The guardian thread body (the closure in `Service::start`) is modelled one
  loop iteration at a time by `guardianCycle`; the environment supplies, per
  iteration, the pid the OS hands out and an `ExitObs` (the `wait()` result:
  `success` and the elapsed wall-clock run time in nanoseconds, matching
  Rust's nanosecond-precision `Duration`).  `guardianRun` iterates cycles
  until the loop `break`s.
- The connection handler `match` in `main` is `dispatch`; `unwrap()` on a
  `None` (an unregistered service name) is the `Response.panicked` outcome:
  the handler thread panics, no bytes are written, and the daemon process is
  not terminated (`exits = false`).
- The `HashMap<String, Service>` registry is an association list
  `List (String × Service)`; its iteration order is the list order (the spec
  allows any order).
-/

/-- `const RESTART_SEC: u64 = 1;` from main.rs line 14. -/
def RESTART_SEC : Nat := 1

/-- The guardian compares `start_time.elapsed() > Duration::from_secs(RESTART_SEC)`;
Rust `Duration`s compare at nanosecond precision, so the threshold is
`RESTART_SEC` seconds expressed in nanoseconds. -/
def restartThresholdNanos : Nat := RESTART_SEC * 1000000000

/-- A call to `libc::kill_(pid, sig)`. -/
structure KillCall where
  pid : Nat
  sig : Nat
deriving Repr, DecidableEq

/-- Mirror of `struct ServiceStatus` (main.rs lines 173-177):
`flag : AtomicBool`, `pid : AtomicU32`, `thread : Mutex<Option<JoinHandle>>`
(modelled by whether the option is `Some`). -/
structure ServiceStatus where
  flag : Bool
  pid : Nat
  threadActive : Bool
deriving Repr, DecidableEq

/-- `ServiceStatus::new`: `flag = true`, `pid = 0`, `thread = None`. -/
def ServiceStatus.new : ServiceStatus :=
  { flag := true, pid := 0, threadActive := false }

/-- Mirror of `struct Service`: the command (basename and args) plus the
shared `ServiceStatus`. -/
structure Service where
  program : String
  args : List String
  status : ServiceStatus
deriving Repr, DecidableEq

/-- `Service::new(basename, args)`. -/
def Service.new (basename : String) (args : List String) : Service :=
  { program := basename, args := args, status := ServiceStatus.new }

/-- `impl Display for Service`: `write!(f, "[{}] {}", status.0, status.1)`
where `status.0` is the flag rendered like Rust `bool::to_string` and
`status.1` the pid rendered in decimal. -/
def serviceDisplay (s : Service) : String :=
  "[" ++ toString s.status.flag ++ "] " ++ toString s.status.pid

/-- Environment handling of a `std::process::Command` builder: Rust's
`Command` inherits the parent process environment unless `env_clear()` is
called on it. -/
inductive EnvMode
| inherit
| cleared
deriving Repr, DecidableEq

/-- The configuration accumulated on a `std::process::Command` builder before
`spawn()`: program, argument vector, and whether the environment was cleared
(Rust's default for a fresh builder is to inherit the parent environment). -/
structure CommandConfig where
  program : String
  argv : List String
  env : EnvMode
deriving Repr, DecidableEq

/-- `Command::new(program)`: fresh builder, no args, environment inherited
(the Rust default). -/
def CommandConfig.new (program : String) : CommandConfig :=
  { program := program, argv := [], env := EnvMode.inherit }

/-- `.args(list)` on a builder appends the arguments. -/
def CommandConfig.withArgs (c : CommandConfig) (a : List String) : CommandConfig :=
  { c with argv := c.argv ++ a }

/-- The exact builder chain the guardian loop runs (main.rs lines 226-229):
`Command::new(&command.0).args(&command.1).spawn()` — no `env_clear()` and no
`env` manipulation appears in the chain. -/
def guardianSpawnConfig (s : Service) : CommandConfig :=
  (CommandConfig.new s.program).withArgs s.args

/-- What the guardian observes from one spawned process: the `wait()` result
`success()` and the elapsed run time `start_time.elapsed()` in nanoseconds. -/
structure ExitObs where
  success : Bool
  elapsedNanos : Nat
deriving Repr, DecidableEq

/-- Outcome of one guardian loop iteration: `continue` (respawn) or the
`else` arm (retire: log, clear the thread slot, clear the flag, `break`). -/
inductive GuardianDecision
| respawn
| retire
deriving Repr, DecidableEq

/-- The branch condition of the guardian loop (main.rs lines 239-249):
`if !result && flag && time_result { continue } else { ... break }` with
`time_result = start_time.elapsed() > Duration::from_secs(RESTART_SEC)`. -/
def guardianDecision (flag : Bool) (obs : ExitObs) : GuardianDecision :=
  if !obs.success && flag && decide (restartThresholdNanos < obs.elapsedNanos) then
    GuardianDecision.respawn
  else
    GuardianDecision.retire

/-- One iteration of the guardian loop body: spawn stores `newPid` into
`pid`, `wait()` returns `obs`, `pid` is stored back to 0, then the branch
decides; the retire arm additionally sets `thread = None` and `flag = false`. -/
def guardianCycle (st : ServiceStatus) (newPid : Nat) (obs : ExitObs) :
    ServiceStatus × GuardianDecision :=
  let running := { st with pid := newPid }
  let waited := { running with pid := 0 }
  match guardianDecision waited.flag obs with
  | GuardianDecision.respawn => (waited, GuardianDecision.respawn)
  | GuardianDecision.retire =>
      ({ waited with threadActive := false, flag := false }, GuardianDecision.retire)

/-- The guardian loop run against a supply of per-iteration inputs (the pid
the OS assigns to each spawn and the observed exit); returns the final status
and the list of pids actually spawned, stopping at the first retire. -/
def guardianRun (st : ServiceStatus) :
    List (Nat × ExitObs) → ServiceStatus × List Nat
  | [] => (st, [])
  | (p, obs) :: rest =>
    match guardianCycle st p obs with
    | (st1, GuardianDecision.retire) => (st1, [p])
    | (st1, GuardianDecision.respawn) =>
      let r := guardianRun st1 rest
      (r.1, p :: r.2)

/-- Result of `Service::start` (main.rs lines 216-252): the updated service,
the kill calls performed (none — `start` never signals anything), and whether
a new guardian thread was spawned. -/
structure StartResult where
  service : Service
  kills : List KillCall
  spawned : Bool
deriving Repr, DecidableEq

/-- `Service::start`: under the thread-slot lock, if `thread.is_none()` set
`flag = true` and install a new guardian thread; otherwise do nothing at all
(no stop, no signal, no spawn). -/
def Service.start (s : Service) : StartResult :=
  if s.status.threadActive then
    { service := s, kills := [], spawned := false }
  else
    { service := { s with status := { s.status with flag := true, threadActive := true } },
      kills := [], spawned := true }

/-- Result of `Service::stop`: the updated service and the kill calls made. -/
structure StopResult where
  service : Service
  kills : List KillCall
deriving Repr, DecidableEq

/-- `Service::stop` (main.rs lines 254-264): under the thread-slot lock, if
`thread.is_some()` then `flag = false`, `kill_(pid, 15)` with whatever value
`pid` currently holds (no non-zero guard), then `pid = 0`; the thread slot
itself is not changed. -/
def Service.stop (s : Service) : StopResult :=
  if s.status.threadActive then
    { service := { s with status := { s.status with flag := false, pid := 0 } },
      kills := [KillCall.mk s.status.pid 15] }
  else
    { service := s, kills := [] }

/-- `Service::restart`: `self.stop(); self.start();`. -/
def Service.restart (s : Service) : Service × List KillCall :=
  let r1 := s.stop
  let r2 := r1.service.start
  (r2.service, r1.kills ++ r2.kills)

/-- The registry `ServiceQueue` (a `HashMap<String, Service>`), as an
association list. -/
abbrev ServiceQueue := List (String × Service)

/-- `queue.get(name)` through the `Deref` to the `HashMap`: lookup by key. -/
def getService : ServiceQueue → String → Option Service
  | [], _ => none
  | p :: rest, n => if p.1 == n then some p.2 else getService rest n

/-- Writing back the (interior-mutated) service for `name`; entries are never
inserted or removed at runtime. -/
def setService : ServiceQueue → String → Service → ServiceQueue
  | [], _, _ => []
  | p :: rest, n, v => (if p.1 == n then (p.1, v) else p) :: setService rest n v

/-- `ServiceQueue::stop` (main.rs lines 166-170): `for v in values { v.stop() }` —
every entry is stopped; the updated queue and all kill calls, in order. -/
def queueStop (q : ServiceQueue) : ServiceQueue × List KillCall :=
  (q.map (fun p => (p.1, (p.2.stop).service)),
   (q.map (fun p => (p.2.stop).kills)).flatten)

/-- `impl Display for ServiceQueue` (main.rs lines 108-116): one
`"{service} {name}"` line per entry, joined with newlines. -/
def queueDisplay (q : ServiceQueue) : String :=
  String.intercalate "\n" (q.map (fun p => serviceDisplay p.2 ++ " " ++ p.1))

/-- What a connection handler writes back: either response text, or no
response at all because the handler thread panicked (`unwrap()` on `None`). -/
inductive Response
| text (s : String)
| panicked
deriving Repr, DecidableEq

/-- Observable outcome of one connection handler: updated registry, kill
calls performed, response, and whether `std::process::exit(0)` was reached
(only the `("daemon", "stop")` arm). A panicked handler never exits the
daemon: the panic unwinds only the per-connection thread. -/
structure DispatchResult where
  queue : ServiceQueue
  kills : List KillCall
  response : Response
  exits : Bool
deriving Repr, DecidableEq

/-- The `match (message[0], message[1])` in `main` (main.rs lines 315-370),
one arm per pattern, in source order: `("daemon","stop")`, `("daemon","status")`,
`("status", s)`, `("restart", s)`, `("start", s)`, `("stop", s)`, catch-all. -/
def dispatch (q : ServiceQueue) (verb arg : String) : DispatchResult :=
  if verb = "daemon" ∧ arg = "stop" then
    let r := queueStop q
    { queue := r.1, kills := r.2, response := Response.text (queueDisplay r.1), exits := true }
  else if verb = "daemon" ∧ arg = "status" then
    { queue := q, kills := [], response := Response.text (queueDisplay q), exits := false }
  else if verb = "status" then
    match getService q arg with
    | none => { queue := q, kills := [], response := Response.panicked, exits := false }
    | some s =>
      { queue := q, kills := [], response := Response.text (serviceDisplay s), exits := false }
  else if verb = "restart" then
    match getService q arg with
    | none => { queue := q, kills := [], response := Response.panicked, exits := false }
    | some s =>
      let r := s.restart
      { queue := setService q arg r.1, kills := r.2,
        response := Response.text (serviceDisplay r.1 ++ " " ++ arg), exits := false }
  else if verb = "start" then
    match getService q arg with
    | none => { queue := q, kills := [], response := Response.panicked, exits := false }
    | some s =>
      let r := s.start
      { queue := setService q arg r.service, kills := r.kills,
        response := Response.text (serviceDisplay r.service ++ " " ++ arg), exits := false }
  else if verb = "stop" then
    match getService q arg with
    | none => { queue := q, kills := [], response := Response.panicked, exits := false }
    | some s =>
      let r := s.stop
      { queue := setService q arg r.service, kills := r.kills,
        response := Response.text (serviceDisplay r.service ++ " " ++ arg), exits := false }
  else
    { queue := q, kills := [], response := Response.text "[option] invalid parameter",
      exits := false }

/-- How `main` runs after argument normalization (main.rs lines 276-289 and
288/376): daemon mode for `("daemon","start")`, usage error (exit -1) when the
argument count is not 1, 2 or 3, otherwise client mode sending
`"{verb}#{arg}"` over the socket. -/
inductive MainMode
| daemonMode
| clientSend (msg : String)
| usageError
deriving Repr, DecidableEq

/-- The `match args.len()` normalization (main.rs lines 278-286):
`argv` includes the program name at index 0. -/
def normalizedArgs (argv : List String) : Option (String × String) :=
  match argv with
  | [_] => some ("daemon", "start")
  | [_, x] => some ("daemon", x)
  | [_, x, y] => some (x, y)
  | _ => none

/-- The outer `match normalized_args`: `("daemon", "start")` runs the daemon;
everything else is the client branch, which writes
`format!("{}#{}", verb, arg)` to the socket. -/
def mainMode (argv : List String) : MainMode :=
  match normalizedArgs argv with
  | none => MainMode.usageError
  | some (v, a) =>
    if v = "daemon" ∧ a = "start" then MainMode.daemonMode
    else MainMode.clientSend (v ++ "#" ++ a)

/-! ### Concrete fixtures and helper lemmas -/

/-- A registered service whose guardian thread is active and whose current
child process has pid 42. -/
def svcRunning : Service :=
  { program := "/bin/sleep", args := ["1000"],
    status := { flag := true, pid := 42, threadActive := true } }

/-- A one-entry registry holding `svcRunning` under the name `"svc"`. -/
def qRunning : ServiceQueue := [("svc", svcRunning)]

/-- The guardian branch condition, spelled out: respawn exactly when the exit
was non-zero, the flag is still set, and the run lasted strictly more than the
threshold. -/
theorem guardianDecision_respawn_iff (flag : Bool) (obs : ExitObs) :
    guardianDecision flag obs = GuardianDecision.respawn ↔
      obs.success = false ∧ flag = true ∧ restartThresholdNanos < obs.elapsedNanos := by
  by_cases h1 : obs.success = true <;> by_cases h2 : flag = true <;>
    by_cases h3 : restartThresholdNanos < obs.elapsedNanos <;>
      simp [guardianDecision, h1, h2, h3]

/-- `guardianCycle` unfolded against the decision taken on the (unchanged)
flag; the stored-then-cleared pid leaves `pid = 0` either way. -/
theorem guardianCycle_eq (st : ServiceStatus) (p : Nat) (obs : ExitObs) :
    guardianCycle st p obs =
      match guardianDecision st.flag obs with
      | GuardianDecision.respawn => ({ st with pid := 0 }, GuardianDecision.respawn)
      | GuardianDecision.retire =>
          ({ flag := false, pid := 0, threadActive := false }, GuardianDecision.retire) := rfl

/-- Stopping every entry of the queue emits the kill call of each entry whose
guardian thread is active. -/
theorem mem_queueStop_kills (q : ServiceQueue) (n : String) (s : Service)
    (hmem : (n, s) ∈ q) (hact : s.status.threadActive = true) :
    KillCall.mk s.status.pid 15 ∈ (queueStop q).2 := by
  induction q with
  | nil => cases hmem
  | cons hd tl ih =>
    rcases List.mem_cons.mp hmem with h | h
    · have hk : (hd.2.stop).kills = [KillCall.mk s.status.pid 15] := by
        rw [← h]; simp [Service.stop, hact]
      simp [queueStop, hk]
    · have hmemtl := ih h
      simp only [queueStop, List.map_cons, List.flatten_cons, List.mem_append]
      right
      simpa [queueStop] using hmemtl

/-- Lookup after write-back: if `n` is present, `getService` after
`setService q n v` returns `v`. -/
theorem getService_setService (q : ServiceQueue) (n : String) (s v : Service)
    (h : getService q n = some s) :
    getService (setService q n v) n = some v := by
  induction q with
  | nil => simp [getService] at h
  | cons hd tl ih =>
    by_cases hk : (hd.1 == n) = true
    · simp [getService, setService, hk]
    · simp [getService, setService, hk] at h ⊢
      exact ih h

/-- The handler arm taken for a literal `stop` verb. -/
theorem dispatch_stop_eq (q : ServiceQueue) (n : String) :
    dispatch q "stop" n =
      match getService q n with
      | none => { queue := q, kills := [], response := Response.panicked, exits := false }
      | some s =>
        { queue := setService q n (s.stop).service, kills := (s.stop).kills,
          response := Response.text (serviceDisplay (s.stop).service ++ " " ++ n),
          exits := false } := rfl

/-- The handler arm taken for a literal `status` verb. -/
theorem dispatch_status_eq (q : ServiceQueue) (n : String) :
    dispatch q "status" n =
      match getService q n with
      | none => { queue := q, kills := [], response := Response.panicked, exits := false }
      | some s =>
        { queue := q, kills := [], response := Response.text (serviceDisplay s),
          exits := false } := rfl

/-- The handler arm taken for a literal `start` verb. -/
theorem dispatch_start_eq (q : ServiceQueue) (n : String) :
    dispatch q "start" n =
      match getService q n with
      | none => { queue := q, kills := [], response := Response.panicked, exits := false }
      | some s =>
        { queue := setService q n (s.start).service, kills := (s.start).kills,
          response := Response.text (serviceDisplay (s.start).service ++ " " ++ n),
          exits := false } := rfl

/-- The handler arm taken for the `daemon stop` request. -/
theorem dispatch_daemon_stop_eq (q : ServiceQueue) :
    dispatch q "daemon" "stop" =
      { queue := (queueStop q).1, kills := (queueStop q).2,
        response := Response.text (queueDisplay (queueStop q).1), exits := true } := rfl

/-! ### Claims -/

/-- C1 counterexample: the claim says a daemon/stop request does not signal
any managed child, but with one running service (pid 42) the handler for
`daemon stop` performs `kill(42, 15)` — the child is explicitly stopped. -/
theorem C1_counterexample :
    (dispatch qRunning "daemon" "stop").kills = [KillCall.mk 42 15] ∧
    (dispatch qRunning "daemon" "stop").exits = true := ⟨rfl, rfl⟩

/-- C1 (amended): on a daemon/stop request the daemon terminates (exits),
but only after stopping every registered service: each entry whose guardian
thread is active has `kill(pid, 15)` delivered to its current pid. -/
theorem C1_daemon_stop_stops_children (q : ServiceQueue) (n : String) (s : Service)
    (hmem : (n, s) ∈ q) (hact : s.status.threadActive = true) :
    (dispatch q "daemon" "stop").exits = true ∧
    KillCall.mk s.status.pid 15 ∈ (dispatch q "daemon" "stop").kills := by
  rw [dispatch_daemon_stop_eq]
  exact ⟨rfl, mem_queueStop_kills q n s hmem hact⟩

/-- C1 witness: the amended theorem at the one-entry running registry. -/
theorem C1_daemon_stop_stops_children_witness :
    (dispatch qRunning "daemon" "stop").exits = true ∧
    KillCall.mk 42 15 ∈ (dispatch qRunning "daemon" "stop").kills :=
  C1_daemon_stop_stops_children qRunning "svc" svcRunning (by simp [qRunning]) rfl

/-- C2 counterexample: the claim says Start on an already-running entry first
stops the old process (a termination signal reaches its pid) and then spawns
a new one; on the code, `start` on the running service (pid 42) performs no
kill, spawns nothing, and leaves the registry unchanged. -/
theorem C2_counterexample :
    (dispatch qRunning "start" "svc").kills = [] ∧
    (Service.start svcRunning).spawned = false ∧
    (Service.start svcRunning).service = svcRunning ∧
    (dispatch qRunning "start" "svc").queue = qRunning := ⟨rfl, rfl, rfl, rfl⟩

/-- C2 (amended): Start on a name whose guardian thread is active is a
no-op: no termination signal is sent, no new guardian or process is spawned,
and the entry is unchanged (hence no two processes are ever simultaneously
owned by the entry — the old process simply stays). -/
theorem C2_start_on_running_noop (q : ServiceQueue) (n : String) (s : Service)
    (hget : getService q n = some s) (hact : s.status.threadActive = true) :
    Service.start s = { service := s, kills := [], spawned := false } ∧
    (dispatch q "start" n).kills = [] ∧
    getService (dispatch q "start" n).queue n = some s := by
  have hs : Service.start s = { service := s, kills := [], spawned := false } := by
    simp [Service.start, hact]
  refine ⟨hs, ?_, ?_⟩
  · rw [dispatch_start_eq, hget]
    simp [hs]
  · rw [dispatch_start_eq, hget]
    simp only [hs]
    exact getService_setService q n s s hget

/-- C2 witness: the amended theorem at the one-entry running registry. -/
theorem C2_start_on_running_noop_witness :
    Service.start svcRunning = { service := svcRunning, kills := [], spawned := false } ∧
    (dispatch qRunning "start" "svc").kills = [] ∧
    getService (dispatch qRunning "start" "svc").queue "svc" = some svcRunning :=
  C2_start_on_running_noop qRunning "svc" svcRunning rfl rfl

/-- C3 counterexample: a run that exits non-zero with the flag still set
after exactly the threshold (elapsed = 1 second = 10^9 ns) retires instead of
respawning: the code requires strictly more than `RESTART_SEC`, so "lasted at
least the minimum-uptime threshold" does not respawn at the boundary. -/
theorem C3_counterexample :
    guardianDecision true { success := false, elapsedNanos := 1000000000 } =
      GuardianDecision.retire := rfl

/-- C3 (amended): the guardian respawns if and only if the exit was non-zero,
the flag is still set (no stop requested), and the run lasted strictly more
than `RESTART_SEC` (1 second); a non-zero exit at or below the threshold
retires into the failed/inactive state (flag false, thread cleared) instead
of looping; and a non-zero exit above the threshold respawns, the next
OS-assigned pid being stored. -/
theorem C3_guardian_restart_policy :
    (∀ (flag : Bool) (obs : ExitObs),
        guardianDecision flag obs = GuardianDecision.respawn ↔
          obs.success = false ∧ flag = true ∧
            restartThresholdNanos < obs.elapsedNanos) ∧
    (∀ (st : ServiceStatus) (p : Nat) (obs : ExitObs),
        obs.success = false → obs.elapsedNanos ≤ restartThresholdNanos →
          guardianCycle st p obs =
            ({ flag := false, pid := 0, threadActive := false },
              GuardianDecision.retire)) ∧
    (∀ (st : ServiceStatus) (p1 p2 : Nat) (obs1 obs2 : ExitObs),
        obs1.success = false → st.flag = true →
          restartThresholdNanos < obs1.elapsedNanos →
          (guardianRun st [(p1, obs1), (p2, obs2)]).2 = [p1, p2]) := by
  refine ⟨guardianDecision_respawn_iff, ?_, ?_⟩
  · intro st p obs hs hel
    have hdec : guardianDecision st.flag obs = GuardianDecision.retire := by
      have : decide (restartThresholdNanos < obs.elapsedNanos) = false := by
        simp [Nat.not_lt.mpr hel]
      simp [guardianDecision, this]
    rw [guardianCycle_eq, hdec]
  · intro st p1 p2 obs1 obs2 h1 hf hel
    have hdec1 : guardianDecision st.flag obs1 = GuardianDecision.respawn :=
      (guardianDecision_respawn_iff st.flag obs1).mpr ⟨h1, hf, hel⟩
    have hc1 : guardianCycle st p1 obs1 =
        ({ st with pid := 0 }, GuardianDecision.respawn) := by
      rw [guardianCycle_eq, hdec1]
    rcases hc2 : guardianCycle { st with pid := 0 } p2 obs2 with ⟨st2, d2⟩
    cases d2 <;> simp [guardianRun, hc1, hc2]

/-- C3 witness: the amended theorem's respawn-then-spawn-again part at a run
that crashed after 1.5 seconds followed by one that crashed after 0.5
seconds: both pids 5 and 6 are spawned. -/
theorem C3_guardian_restart_policy_witness :
    (guardianRun { flag := true, pid := 0, threadActive := true }
        [(5, { success := false, elapsedNanos := 1500000000 }),
         (6, { success := false, elapsedNanos := 500000000 })]).2 = [5, 6] :=
  C3_guardian_restart_policy.2.2 _ 5 6 _ _ rfl rfl (by decide)

/-- C4 counterexample: the claim says Stop removes all record of the entry;
on the code, after `stop svc` a `status svc` request still succeeds (with
text `[false] 0`, not a not-found failure) and `svc` still appears in the
daemon-status output. -/
theorem C4_counterexample :
    (dispatch (dispatch qRunning "stop" "svc").queue "status" "svc").response =
      Response.text "[false] 0" ∧
    queueDisplay (dispatch qRunning "stop" "svc").queue = "[false] 0 svc" :=
  ⟨rfl, rfl⟩

/-- C4 (amended): Stop(n) does not remove n from the registry: the entry
remains (with its stopped status), a later Status(n) succeeds and reports
that status, and — when the guardian thread was active — the stopped status
has flag false and pid 0. -/
theorem C4_stop_retains_entry (q : ServiceQueue) (n : String) (s : Service)
    (hget : getService q n = some s) :
    getService (dispatch q "stop" n).queue n = some (s.stop).service ∧
    (dispatch (dispatch q "stop" n).queue "status" n).response =
      Response.text (serviceDisplay (s.stop).service) ∧
    (s.status.threadActive = true →
      ((s.stop).service.status.flag = false ∧ (s.stop).service.status.pid = 0)) := by
  have hq : (dispatch q "stop" n).queue = setService q n (s.stop).service := by
    rw [dispatch_stop_eq, hget]
  have hg : getService (dispatch q "stop" n).queue n = some (s.stop).service := by
    rw [hq]; exact getService_setService q n s _ hget
  refine ⟨hg, ?_, ?_⟩
  · rw [dispatch_status_eq, hg]
  · intro hact
    simp [Service.stop, hact]

/-- C4 witness: the amended theorem at the one-entry running registry. -/
theorem C4_stop_retains_entry_witness :
    getService (dispatch qRunning "stop" "svc").queue "svc" =
      some (svcRunning.stop).service ∧
    (dispatch (dispatch qRunning "stop" "svc").queue "status" "svc").response =
      Response.text (serviceDisplay (svcRunning.stop).service) ∧
    (svcRunning.status.threadActive = true →
      ((svcRunning.stop).service.status.flag = false ∧
        (svcRunning.stop).service.status.pid = 0)) :=
  C4_stop_retains_entry qRunning "svc" svcRunning rfl

/-- C5 counterexample: the claim says Stop/Status on an unregistered name is
reported to the client as response text; on the code the handler calls
`unwrap()` on `None` and panics, so no response text is written at all. -/
theorem C5_counterexample :
    (dispatch qRunning "stop" "nosuch").response = Response.panicked ∧
    (dispatch qRunning "status" "nosuch").response = Response.panicked :=
  ⟨rfl, rfl⟩

/-- C5 (amended): Stop or Status naming an unregistered service makes the
connection-handler thread panic on `unwrap()`: no response text (NotFound or
otherwise) is written to the client; the failure is still never fatal to the
daemon (no exit), and the registry and processes are untouched (no kills). -/
theorem C5_unregistered_name_panics (q : ServiceQueue) (n : String)
    (hget : getService q n = none) :
    (dispatch q "stop" n).response = Response.panicked ∧
    (dispatch q "status" n).response = Response.panicked ∧
    (dispatch q "stop" n).exits = false ∧
    (dispatch q "status" n).exits = false ∧
    (dispatch q "stop" n).queue = q ∧
    (dispatch q "stop" n).kills = [] ∧
    (dispatch q "status" n).queue = q ∧
    (dispatch q "status" n).kills = [] := by
  rw [dispatch_stop_eq, dispatch_status_eq, hget]
  exact ⟨rfl, rfl, rfl, rfl, rfl, rfl, rfl, rfl⟩

/-- C5 witness: the amended theorem at an unregistered name. -/
theorem C5_unregistered_name_panics_witness :
    (dispatch qRunning "stop" "nosuch").response = Response.panicked ∧
    (dispatch qRunning "status" "nosuch").response = Response.panicked ∧
    (dispatch qRunning "stop" "nosuch").exits = false ∧
    (dispatch qRunning "status" "nosuch").exits = false ∧
    (dispatch qRunning "stop" "nosuch").queue = qRunning ∧
    (dispatch qRunning "stop" "nosuch").kills = [] ∧
    (dispatch qRunning "status" "nosuch").queue = qRunning ∧
    (dispatch qRunning "status" "nosuch").kills = [] :=
  C5_unregistered_name_panics qRunning "nosuch" rfl

/-- C6: a clean (status zero) exit retires the guardian: the pid is cleared,
the flag is set to false (the spec's stopRequested), the thread slot is
cleared, and no further process is ever spawned for the entry regardless of
any further inputs; Status on that state renders `[false] 0`. -/
theorem C6_clean_exit_terminal (st : ServiceStatus) (p : Nat) (obs : ExitObs)
    (hs : obs.success = true) (rest : List (Nat × ExitObs)) :
    guardianRun st ((p, obs) :: rest) =
      ({ flag := false, pid := 0, threadActive := false }, [p]) ∧
    (∀ (prog : String) (as : List String),
      serviceDisplay
        { program := prog, args := as,
          status := (guardianRun st ((p, obs) :: rest)).1 } = "[false] 0") := by
  have hdec : guardianDecision st.flag obs = GuardianDecision.retire := by
    simp [guardianDecision, hs]
  have hc : guardianCycle st p obs =
      ({ flag := false, pid := 0, threadActive := false }, GuardianDecision.retire) := by
    rw [guardianCycle_eq, hdec]
  have hrun : guardianRun st ((p, obs) :: rest) =
      ({ flag := false, pid := 0, threadActive := false }, [p]) := by
    simp [guardianRun, hc]
  refine ⟨hrun, fun prog as => ?_⟩
  rw [hrun]
  show "[" ++ toString false ++ "] " ++ toString (0 : Nat) = "[false] 0"
  decide

/-- C6 witness: the theorem on a clean exit after 5 ns, with a pending dirty
observation behind it that is never consumed. -/
theorem C6_clean_exit_terminal_witness :
    guardianRun { flag := true, pid := 7, threadActive := true }
        [(9, { success := true, elapsedNanos := 5 }),
         (10, { success := false, elapsedNanos := 2000000000 })] =
      ({ flag := false, pid := 0, threadActive := false }, [9]) :=
  (C6_clean_exit_terminal { flag := true, pid := 7, threadActive := true } 9
      { success := true, elapsedNanos := 5 } rfl
      [(10, { success := false, elapsedNanos := 2000000000 })]).1

/-- C7 counterexample: the claim says any verb outside daemon/status/start/stop
is a no-op answered with the literal "Invalid parameter"; the verb `restart`
is outside that set, yet the code kills the running child (pid 42) and
answers with a status line, not with "Invalid parameter". -/
theorem C7_counterexample :
    (dispatch qRunning "restart" "svc").kills = [KillCall.mk 42 15] ∧
    (dispatch qRunning "restart" "svc").response ≠
      Response.text "Invalid parameter" := by
  exact ⟨rfl, by decide⟩

/-- C7 (amended): the dispatcher knows the verbs daemon, status, restart,
start and stop; for any verb outside these five the handler performs no
registry operation, sends no signal, does not exit, and responds with the
literal `[option] invalid parameter`. -/
theorem C7_unknown_verb_noop (q : ServiceQueue) (verb arg : String)
    (h1 : verb ≠ "daemon") (h2 : verb ≠ "status") (h3 : verb ≠ "restart")
    (h4 : verb ≠ "start") (h5 : verb ≠ "stop") :
    dispatch q verb arg =
      { queue := q, kills := [],
        response := Response.text "[option] invalid parameter", exits := false } := by
  simp [dispatch, h1, h2, h3, h4, h5]

/-- C7 witness: the amended theorem at the unknown verb `frobnicate`. -/
theorem C7_unknown_verb_noop_witness :
    dispatch qRunning "frobnicate" "x" =
      { queue := qRunning, kills := [],
        response := Response.text "[option] invalid parameter", exits := false } :=
  C7_unknown_verb_noop qRunning "frobnicate" "x" (by decide) (by decide) (by decide)
    (by decide) (by decide)

/-- C8 counterexample: with exactly one extra argument, `start` does not run
in client mode at all (it runs the daemon), and for other arguments the wire
message uses `#`, not `/`, as the separator (`daemon#status`). -/
theorem C8_counterexample :
    mainMode ["dctl", "start"] = MainMode.daemonMode ∧
    mainMode ["dctl", "status"] = MainMode.clientSend "daemon#status" :=
  ⟨rfl, rfl⟩

/-- C8 (amended): with exactly one extra argument X the program runs the
daemon when X is `start`, and otherwise runs in client mode sending
`daemon#X` (wire format `<verb>#<argument>`); with more than two extra
arguments it reports a usage error and exits non-zero. -/
theorem C8_cli_normalization (prog x : String) (argv : List String)
    (hx : x ≠ "start") (hlen : 4 ≤ argv.length) :
    mainMode [prog, x] = MainMode.clientSend ("daemon" ++ "#" ++ x) ∧
    mainMode [prog, "start"] = MainMode.daemonMode ∧
    mainMode argv = MainMode.usageError := by
  refine ⟨?_, rfl, ?_⟩
  · simp [mainMode, normalizedArgs, hx]
  · rcases argv with _ | ⟨a, _ | ⟨b, _ | ⟨c, _ | ⟨d, t⟩⟩⟩⟩
    · simp at hlen
    · simp at hlen
    · simp at hlen
    · simp at hlen
    · rfl

/-- C8 witness: the amended theorem at `status` as the single extra argument
and a four-argument vector for the usage-error case. -/
theorem C8_cli_normalization_witness :
    mainMode ["dctl", "status"] = MainMode.clientSend ("daemon" ++ "#" ++ "status") ∧
    mainMode ["dctl", "start"] = MainMode.daemonMode ∧
    mainMode ["dctl", "a", "b", "c"] = MainMode.usageError :=
  C8_cli_normalization "dctl" "status" ["dctl", "a", "b", "c"] (by decide) (by decide)

/-- C9 counterexample: the builder chain actually run by the guardian for a
concrete service does not clear the environment (its env mode is the Rust
default, inherit), contradicting the claimed empty/cleared environment. -/
theorem C9_counterexample :
    (guardianSpawnConfig (Service.new "/bin/true" [])).env ≠ EnvMode.cleared := by
  decide

/-- C9 (amended): every guardian spawn uses
`Command::new(program).args(args).spawn()` with no `env_clear()`; the child
therefore inherits the daemon's environment (env mode is `inherit`), while
program and argument vector are passed through unchanged. -/
theorem C9_spawn_inherits_env (s : Service) :
    (guardianSpawnConfig s).env = EnvMode.inherit ∧
    (guardianSpawnConfig s).program = s.program ∧
    (guardianSpawnConfig s).argv = s.args := by
  refine ⟨rfl, rfl, ?_⟩
  simp [guardianSpawnConfig, CommandConfig.new, CommandConfig.withArgs]

/-- C10: `stop` on an entry whose guardian thread is active calls the kill
primitive with whatever the pid field currently holds, with no non-zero
guard; and in the reachable between-processes window (right after a cycle
that decided to respawn, before the next spawn stores its pid) the pid field
is 0 while the thread is still active, so `stop` there calls `kill(0, 15)`. -/
theorem C10_stop_kills_current_pid (s : Service) (hact : s.status.threadActive = true)
    (st : ServiceStatus) (p : Nat) (obs : ExitObs)
    (hthr : st.threadActive = true)
    (hresp : (guardianCycle st p obs).2 = GuardianDecision.respawn) :
    (Service.stop s).kills = [KillCall.mk s.status.pid 15] ∧
    (guardianCycle st p obs).1.pid = 0 ∧
    (guardianCycle st p obs).1.threadActive = true ∧
    (Service.stop
        { program := s.program, args := s.args,
          status := (guardianCycle st p obs).1 }).kills = [KillCall.mk 0 15] := by
  have hstate : (guardianCycle st p obs).1 = { st with pid := 0 } := by
    rw [guardianCycle_eq] at hresp ⊢
    rcases hd : guardianDecision st.flag obs with _ | _
    · simp [hd]
    · simp [hd] at hresp
  refine ⟨by simp [Service.stop, hact], ?_, ?_, ?_⟩
  · rw [hstate]
  · rw [hstate]; exact hthr
  · rw [hstate]
    simp [Service.stop, hthr]

/-- C10 witness: the theorem at the running service (pid 42) and a guardian
state that just finished a dirty 2-second run and decided to respawn. -/
theorem C10_stop_kills_current_pid_witness :
    (Service.stop svcRunning).kills = [KillCall.mk 42 15] ∧
    (guardianCycle { flag := true, pid := 5, threadActive := true } 6
        { success := false, elapsedNanos := 2000000000 }).1.pid = 0 ∧
    (guardianCycle { flag := true, pid := 5, threadActive := true } 6
        { success := false, elapsedNanos := 2000000000 }).1.threadActive = true ∧
    (Service.stop
        { program := "/bin/sleep", args := ["1000"],
          status := (guardianCycle { flag := true, pid := 5, threadActive := true } 6
            { success := false, elapsedNanos := 2000000000 }).1 }).kills =
      [KillCall.mk 0 15] :=
  C10_stop_kills_current_pid svcRunning rfl
    { flag := true, pid := 5, threadActive := true } 6
    { success := false, elapsedNanos := 2000000000 } rfl (by decide)
